import Mathlib

/-!
Verification of the periodic, budget-constrained claim-settlement engine
(the salary pallet) of this repository.

The engine's implementation file is not part of the sources given under
`src/` — only its test suite, `src/frame/salary/src/tests.rs`, is.  The
definitions below are therefore modelled from the specification
(`spec.md`, sections 3, 4 and 7), with every behavioural detail that the
test suite pins down taken from the tests (which are source code of the
repository and hence authoritative where they speak).  The three places
where the tests force a reading different from the spec's literal words
are marked in the doc comments below, and each is exercised by a replay
of the corresponding Rust test (`replay_*` theorems), so that the model
is validated end-to-end against every test of the suite.

Conventions: balances, ticks, ranks, account ids and payment ids are
`Nat` (the Rust tests instantiate them all at `u64`; no arithmetic here
comes near overflow, and the pallet uses saturating operations, which
`Nat` subtraction models exactly for the subtractions involved).
-/

namespace SalaryEngine

/-- Status of an external payment, as reported by the payment gateway
(`check_status` in spec §6); an id the gateway does not know is
`unknown` (the Rust test double defaults to `Unknown`). -/
inductive PaymentStatus where
  | pending
  | success
  | failure
  | unknown
deriving DecidableEq, Repr

/-- The engine's error kinds (spec §7): all locally recoverable
validation failures. -/
inductive Error where
  | NotYet
  | NotStarted
  | NotMember
  | AlreadyInducted
  | NotInducted
  | NoClaim
  | TooEarly
  | ClaimZero
deriving DecidableEq, Repr

/-- Modelled from the spec: the `Cycle` record of spec §3 (called
`StatusType` by the tests).  `registrationsPaid` is the internal
`cumulative_registered_claims_settled` counter; the other fields are the
observable snapshot `{index, start, budget, total_registered_claims,
total_unregistered_paid}`. -/
structure Status where
  cycleIndex : Nat
  cycleStart : Nat
  budget : Nat
  totalRegistrations : Nat
  registrationsPaid : Nat
  totalUnregisteredPaid : Nat
deriving DecidableEq, Repr

/-- Modelled from the spec: the per-member per-cycle claim/settlement
marker.  `nothing` means neither registered nor attempted in the
member's `lastActive` cycle; `registered a` records the claim amount
reserved by `register`; `attempted reg id amt` is the spec's
`pending_payment`, recording the payment id together with the amount of
the original attempt (spec §4.4 requires a retry to pay "the same
amount as originally", so the attempted amount is part of the state)
and, for a registered claimant, the registered amount `reg`. -/
inductive ClaimState where
  | nothing
  | registered (amount : Nat)
  | attempted (registeredAmount : Option Nat) (id : Nat) (amount : Nat)
deriving DecidableEq, Repr

/-- Modelled from the spec: the `Member` record of spec §3.  A record
exists only for inducted accounts, so `lastActive` (the spec's
`last_active_cycle`) is a plain `Nat` here; absence of the record is
represented by `Option Claimant = none` at the call sites. -/
structure Claimant where
  lastActive : Nat
  status : ClaimState
deriving DecidableEq, Repr

/-- Result of a successful `payout` call: the replaced cycle record, the
replaced member record of the caller, and the external payment that was
issued (beneficiary and amount). -/
structure PayResult where
  status : Status
  claimant : Claimant
  beneficiary : Nat
  amount : Nat
deriving DecidableEq, Repr

/-- Success projection of an engine call result. -/
def resOpt {α : Type} : Except Error α → Option α
  | .ok a => some a
  | .error _ => none

/-- Error projection of an engine call result. -/
def resErr {α : Type} : Except Error α → Option Error
  | .ok _ => none
  | .error e => some e

/-- Modelled from the spec: the amount paid to a registered claimant
(spec §4.4, payout, registered branch), as a pure function of the
cycle's `budget`, `total_registered_claims` (`total`), the cumulative
`cumulative_registered_claims_settled` (`paid`) and the claimant's
registered claim amount (`claim`).  The spec's literal formula uses
`budget` as the numerator factor; the tests (`mixed_bankrupcy`: budget
10, total 8, a registered claim of 6 is paid 6, not `floor(6*10/8) = 7`)
force the effective budget to be capped at `total`, i.e. the factor is
`min budget total`.  The spec's "denominator only if positive" guard is
`max total 1` (when `total = 0` the `min` factor is `0` anyway). -/
def registeredPayout (budget total paid claim : Nat) : Nat :=
  (paid + claim) * min budget total / max total 1
    - paid * min budget total / max total 1

/-- The registered-payout formula exactly as the spec words it (plain
`budget` as the numerator factor, denominator guarded to be positive).
Kept separate from `registeredPayout` purely for comparison: the two
differ when `budget > total`. -/
def specRegisteredAmount (budget total paid claim : Nat) : Nat :=
  (paid + claim) * budget / max total 1 - paid * budget / max total 1

/-- Modelled from the spec: the amount paid to an unregistered claimant
(spec §4.4, payout, unregistered branch): the claim capped by the
leftover pool `saturating_sub(budget, total_registered_claims) −
total_unregistered_paid` (Nat subtraction is saturating). -/
def unregisteredPayout (budget total unregisteredPaid claim : Nat) : Nat :=
  min claim (budget - total - unregisteredPaid)

/-- Modelled from the spec: `advance_cycle` (called `bump` by the tests;
spec §4.1).  With no current cycle it creates cycle 0 starting `now`.
With a current cycle, the spec's words say the replacement starts at
`now`; the tests force the start to advance by exactly one full period
instead (`unregistered_payment_works`: `bump` at tick 6 yields a cycle
whose payout sub-window opens at tick 7, i.e. start 5 = 1 + 2 + 2), and
the call succeeds only when `now` has reached that advanced start —
which is the same `NotYet` condition the spec states.  The budget is
freshly sampled (`budgetNow`) and all three counters reset to 0. -/
def bump (regPeriod payPeriod budgetNow now : Nat) (st : Option Status) :
    Except Error Status :=
  match st with
  | none => .ok ⟨0, now, budgetNow, 0, 0, 0⟩
  | some s =>
    if s.cycleStart + (regPeriod + payPeriod) ≤ now then
      .ok ⟨s.cycleIndex + 1, s.cycleStart + (regPeriod + payPeriod),
           budgetNow, 0, 0, 0⟩
    else .error .NotYet

/-- Modelled from the spec: `induct` (spec §4.2).  `hasRank` is whether
the external rank capability reports a rank for the account; `cl` is
the account's existing member record, if any.  On success the new
record marks the current cycle as already consumed. -/
def induct (hasRank : Bool) (st : Option Status) (cl : Option Claimant) :
    Except Error Claimant :=
  match st with
  | none => .error .NotStarted
  | some s =>
    if hasRank then
      match cl with
      | some _ => .error .AlreadyInducted
      | none => .ok ⟨s.cycleIndex, .nothing⟩
    else .error .NotMember

/-- Modelled from the spec: `register` (spec §4.4).  `salary` is
`claim_amount(rank)` for the caller's current rank, evaluated fresh at
the call.  Eligibility is `lastActive < cycleIndex`; on success the
claim is added to `total_registered_claims` and the member record marks
this cycle with the reserved amount.  No time-window check (spec §4.4
and §9, open question resolved as window-unrestricted). -/
def register (salary : Nat) (st : Option Status) (cl : Option Claimant) :
    Except Error (Status × Claimant) :=
  match st with
  | none => .error .NotStarted
  | some s =>
    match cl with
    | none => .error .NotInducted
    | some c =>
      if c.lastActive < s.cycleIndex then
        .ok ({ s with totalRegistrations := s.totalRegistrations + salary },
             ⟨s.cycleIndex, .registered salary⟩)
      else .error .NoClaim

/-- Modelled from the spec: the unregistered branch of a fresh payout
claim (spec §4.4): requires eligibility (`lastActive < cycleIndex`),
pays `min (claim, leftover pool)`, fails `ClaimZero` on a zero amount,
and on success adds the amount to `total_unregistered_paid` and records
the pending payment. -/
def unregisteredFresh (claim newId : Nat) (s : Status) (c : Claimant)
    (ben : Nat) : Except Error PayResult :=
  if c.lastActive < s.cycleIndex then
    let amt := unregisteredPayout s.budget s.totalRegistrations
      s.totalUnregisteredPaid claim
    if amt = 0 then .error .ClaimZero
    else
      .ok ⟨{ s with totalUnregisteredPaid := s.totalUnregisteredPaid + amt },
           ⟨s.cycleIndex, .attempted none newId amt⟩, ben, amt⟩
  else .error .NoClaim

/-- Modelled from the spec: a fresh payout claim (spec §4.4, the
non-retry path).  The spec lists the `NoClaim` eligibility check before
the `TooEarly` window check; the tests force the opposite order
(`unregistered_payment_works` tick 1: an account inducted this very
cycle — hence ineligible — calling before the window opens gets
`TooEarly`).  A claimant registered for the current cycle is paid by
the rationing formula against its stored registered amount; anyone else
goes through the unregistered branch. -/
def freshPayout (regPeriod now claim newId : Nat) (s : Status)
    (c : Claimant) (ben : Nat) : Except Error PayResult :=
  if now < s.cycleStart + regPeriod then .error .TooEarly
  else
    match c.status with
    | .registered a =>
      if c.lastActive = s.cycleIndex then
        let amt := registeredPayout s.budget s.totalRegistrations
          s.registrationsPaid a
        if amt = 0 then .error .ClaimZero
        else
          .ok ⟨{ s with registrationsPaid := s.registrationsPaid + a },
               ⟨s.cycleIndex, .attempted (some a) newId amt⟩, ben, amt⟩
      else unregisteredFresh claim newId s c ben
    | _ => unregisteredFresh claim newId s c ben

/-- Modelled from the spec: `payout` (spec §4.4).  `check` is the
external payment-status capability, `claim` is `claim_amount(rank)` for
the caller's current rank, `newId` the id the gateway would assign to a
new payment, `ben` the beneficiary account passed as an explicit call
argument (the tests call `payout(origin, beneficiary)`).  A pending
payment for the current cycle is either retried (status `failure`: pay
the same amount again under the fresh id, counters untouched) or blocks
with `NoClaim`; any other state is a fresh claim. -/
def payout (regPeriod now : Nat) (check : Nat → PaymentStatus)
    (claim newId : Nat) (st : Option Status) (cl : Option Claimant)
    (ben : Nat) : Except Error PayResult :=
  match st with
  | none => .error .NotStarted
  | some s =>
    match cl with
    | none => .error .NotInducted
    | some c =>
      match c.status with
      | .attempted reg id amt =>
        if c.lastActive = s.cycleIndex then
          if check id = .failure then
            .ok ⟨s, ⟨c.lastActive, .attempted reg newId amt⟩, ben, amt⟩
          else .error .NoClaim
        else freshPayout regPeriod now claim newId s c ben
      | _ => freshPayout regPeriod now claim newId s c ben

/-! ## A whole-system harness and replays of the Rust test suite

The following definitions wire the four operations to a complete mutable
world — cycle record, member records, the rank capability (the tests'
`TestClub`), the payment capability (the tests' `TestPay`: an id counter
incremented at every `pay` call, a status map defaulting to `unknown`,
and a per-beneficiary ledger of amounts paid).  Every test of
`src/frame/salary/src/tests.rs` is then replayed step by step, asserting
exactly the outcomes the Rust test asserts.  These replays validate the
modelled definitions above against the repository's authoritative test
code. -/

/-- Lookup in an association list keyed by `Nat`. -/
def lget {α : Type} (l : List (Nat × α)) (k : Nat) : Option α :=
  (l.find? (fun q => q.1 == k)).map (fun q => q.2)

/-- `lget` with a default. -/
def lgetD {α : Type} (l : List (Nat × α)) (k : Nat) (d : α) : α :=
  (lget l k).getD d

/-- Insert or replace in an association list keyed by `Nat`. -/
def lput {α : Type} (l : List (Nat × α)) (k : Nat) (v : α) :
    List (Nat × α) :=
  (k, v) :: l.filter (fun q => !(q.1 == k))

/-- Credit an amount to a beneficiary in the paid ledger (the tests'
`PAID` map: `pay` adds the amount to the entry). -/
def lcredit (l : List (Nat × Nat)) (k amt : Nat) : List (Nat × Nat) :=
  lput l k (lgetD l k 0 + amt)

/-- The complete system state: the engine's own state (`status`,
`claimants`) plus the external collaborators' state as held by the Rust
test doubles (`club` = ranks, `paid` = amounts paid per beneficiary,
`payStatus` = payment status map, `nextId` = the gateway's id counter). -/
structure World where
  status : Option Status
  claimants : List (Nat × Claimant)
  club : List (Nat × Nat)
  paid : List (Nat × Nat)
  payStatus : List (Nat × PaymentStatus)
  nextId : Nat
deriving DecidableEq, Repr

/-- Fresh world with a given rank table. -/
def World.init (club : List (Nat × Nat)) : World :=
  ⟨none, [], club, [], [], 0⟩

/-- Payment status capability of a world (unknown ids are `unknown`,
as in the tests' `TestPay::check_payment`). -/
def World.check (w : World) (id : Nat) : PaymentStatus :=
  lgetD w.payStatus id .unknown

/-- Amount paid so far to an account (the tests' `paid(who)`). -/
def World.paidTo (w : World) (who : Nat) : Nat := lgetD w.paid who 0

/-- `advance_cycle` on a world at tick `now`, sampling `budgetNow`. -/
def wBump (regPeriod payPeriod budgetNow now : Nat) (w : World) :
    Except Error World :=
  (bump regPeriod payPeriod budgetNow now w.status).map
    fun s => { w with status := some s }

/-- `induct` on a world. -/
def wInduct (w : World) (who : Nat) : Except Error World :=
  (induct (lget w.club who).isSome w.status (lget w.claimants who)).map
    fun c => { w with claimants := lput w.claimants who c }

/-- `register` on a world; the claim amount is the caller's rank via the
identity salary mapping, as in the tests (`ActiveSalaryForRank =
Identity`). -/
def wRegister (w : World) (who : Nat) : Except Error World :=
  (register (lgetD w.club who 0) w.status (lget w.claimants who)).map
    fun r => { w with status := some r.1,
                      claimants := lput w.claimants who r.2 }

/-- `payout` on a world: the gateway assigns id `nextId` and increments
its counter on every actual `pay` call, and credits the beneficiary. -/
def wPayout (regPeriod now : Nat) (w : World) (who ben : Nat) :
    Except Error World :=
  (payout regPeriod now w.check (lgetD w.club who 0) w.nextId w.status
      (lget w.claimants who) ben).map
    fun r => { w with status := some r.status,
                      claimants := lput w.claimants who r.claimant,
                      paid := lcredit w.paid ben r.amount,
                      nextId := w.nextId + 1 }

/-- The tests' `unpay` helper: saturating deduction from the ledger. -/
def wUnpay (w : World) (who amt : Nat) : World :=
  { w with paid := lput w.paid who (w.paidTo who - amt) }

/-- The tests' `set_status` helper. -/
def wSetStatus (w : World) (id : Nat) (st : PaymentStatus) : World :=
  { w with payStatus := lput w.payStatus id st }

/-- The tests' `TestClub::change`. -/
def wSetRank (w : World) (who rank : Nat) : World :=
  { w with club := lput w.club who rank }

/-- Expected outcome of one engine call in a test script: `assert_ok!`
or `assert_noop!` with a specific error. -/
inductive Outcome where
  | ok
  | err (e : Error)
deriving DecidableEq, Repr

/-- One step of a test script: an engine call paired with its expected
outcome, a mutation of an external test double, or an `assert_eq!`-style
observation. -/
inductive Act where
  | doBump (expected : Outcome) (budgetNow now : Nat)
  | doInduct (expected : Outcome) (who : Nat)
  | doRegister (expected : Outcome) (who : Nat)
  | doPayout (expected : Outcome) (now who ben : Nat)
  | setRank (who rank : Nat)
  | setStatus (id : Nat) (ps : PaymentStatus)
  | unpay (who amt : Nat)
  | expectPaid (who amt : Nat)
  | expectStatus (st : Option Status)
  | expectTotalReg (n : Nat)
  | expectUnregPaid (n : Nat)
  | expectLastActive (who : Nat) (v : Option Nat)
deriving DecidableEq, Repr

/-- Check an engine call against its expected outcome: `assert_ok!`
continues with the new world; `assert_noop!` demands exactly the given
error and continues from the untouched world. -/
def checkOutcome (expected : Outcome) (prev : World) :
    Except Error World → Option World
  | .ok w2 => match expected with
    | .ok => some w2
    | .err _ => none
  | .error e2 => match expected with
    | .ok => none
    | .err e => if e = e2 then some prev else none

/-- Run one script step (with the test configuration
`RegistrationPeriod = PayoutPeriod = 2`). -/
def runAct (w : World) : Act → Option World
  | .doBump expected budgetNow now =>
      checkOutcome expected w (wBump 2 2 budgetNow now w)
  | .doInduct expected who => checkOutcome expected w (wInduct w who)
  | .doRegister expected who => checkOutcome expected w (wRegister w who)
  | .doPayout expected now who ben =>
      checkOutcome expected w (wPayout 2 now w who ben)
  | .setRank who rank => some (wSetRank w who rank)
  | .setStatus id ps => some (wSetStatus w id ps)
  | .unpay who amt => some (wUnpay w who amt)
  | .expectPaid who amt => if w.paidTo who = amt then some w else none
  | .expectStatus st => if w.status = st then some w else none
  | .expectTotalReg n =>
      if w.status.map (fun s => s.totalRegistrations) = some n then some w
      else none
  | .expectUnregPaid n =>
      if w.status.map (fun s => s.totalUnregisteredPaid) = some n then some w
      else none
  | .expectLastActive who v =>
      if (lget w.claimants who).map (fun c => c.lastActive) = v then some w
      else none

/-- Run a whole script; `none` as soon as a step's outcome differs from
what the script expects. -/
def runScript (w : World) : List Act → Option World
  | [] => some w
  | a :: rest => (runAct w a).bind (fun w2 => runScript w2 rest)

/-- Replay of the Rust test `can_start` (tests.rs lines 178-193). -/
def canStartTrace : Option World :=
  runScript (World.init [])
    [.doBump .ok 10 1,
     .expectStatus (some ⟨0, 1, 10, 0, 0, 0⟩)]

/-- Replay of the Rust test `bump_works` (tests.rs lines 195-232),
including the external budget change to 5 before the third bump. -/
def bumpWorksTrace : Option World :=
  runScript (World.init [])
    [.doBump .ok 10 1,
     .doBump (.err .NotYet) 10 4,
     .doBump .ok 10 5,
     .expectStatus (some ⟨1, 5, 10, 0, 0, 0⟩),
     .doBump (.err .NotYet) 10 8,
     .doBump .ok 5 9,
     .expectStatus (some ⟨2, 9, 5, 0, 0, 0⟩)]

/-- Replay of the Rust test `induct_works` (tests.rs lines 234-246). -/
def inductWorksTrace : Option World :=
  runScript (World.init [])
    [.doBump .ok 10 1,
     .doInduct (.err .NotMember) 1,
     .setRank 1 1,
     .expectLastActive 1 none,
     .doInduct .ok 1,
     .expectLastActive 1 (some 0),
     .doInduct (.err .AlreadyInducted) 1]

/-- Replay of the Rust test `unregistered_payment_works` (tests.rs lines
248-279).  This is the replay that pins down the two deviations from the
spec's literal words: the cycle start accrues by one full period (bump
at tick 6 gives a cycle with start 5, so the payout window opens at 7),
and an ineligible account calling before the window opens gets
`TooEarly`, not `NoClaim`. -/
def unregisteredPaymentTrace : Option World :=
  runScript (World.init [(1, 1)])
    [.doInduct (.err .NotStarted) 1,
     .doBump .ok 10 1,
     .doPayout (.err .NotInducted) 1 1 1,
     .doInduct .ok 1,
     .doPayout (.err .TooEarly) 1 1 1,
     .doPayout (.err .NoClaim) 3 1 1,
     .doBump .ok 10 6,
     .doPayout (.err .TooEarly) 6 1 1,
     .doPayout .ok 7 1 1,
     .expectPaid 1 1,
     .expectUnregPaid 1,
     .doPayout (.err .NoClaim) 7 1 1,
     .doBump (.err .NotYet) 10 8,
     .doBump .ok 10 9,
     .doPayout .ok 11 1 10,
     .expectPaid 1 1,
     .expectPaid 10 1,
     .expectUnregPaid 1]

/-- Replay of the Rust test `retry_payment_works` (tests.rs lines
281-313): a payment marked `Failure` may be retried, paying the same
amount under a fresh id without double-counting totals. -/
def retryPaymentTrace : Option World :=
  runScript (World.init [(1, 1)])
    [.doBump .ok 10 1,
     .doInduct .ok 1,
     .doBump .ok 10 6,
     .doPayout .ok 7 1 1,
     .unpay 1 1,
     .setStatus 0 .failure,
     .doPayout .ok 7 1 1,
     .expectPaid 1 1,
     .expectUnregPaid 1,
     .doPayout (.err .NoClaim) 7 1 1,
     .doBump (.err .NotYet) 10 8,
     .doBump .ok 10 9,
     .doPayout .ok 11 1 10,
     .expectPaid 1 1,
     .expectPaid 10 1,
     .expectUnregPaid 1]

/-- Replay of the Rust test `registered_payment_works` (tests.rs lines
315-348). -/
def registeredPaymentTrace : Option World :=
  runScript (World.init [(1, 1)])
    [.doInduct (.err .NotStarted) 1,
     .doBump .ok 10 1,
     .doPayout (.err .NotInducted) 1 1 1,
     .doInduct .ok 1,
     .doRegister (.err .NoClaim) 1,
     .doPayout (.err .NoClaim) 3 1 1,
     .doBump .ok 10 5,
     .doRegister .ok 1,
     .expectTotalReg 1,
     .doPayout .ok 7 1 1,
     .expectPaid 1 1,
     .expectUnregPaid 0,
     .doPayout (.err .NoClaim) 7 1 1,
     .doBump .ok 10 9,
     .expectTotalReg 0,
     .doRegister .ok 1,
     .expectTotalReg 1,
     .doPayout .ok 11 1 1,
     .expectPaid 1 2,
     .expectUnregPaid 0]

/-- Replay of the Rust test `zero_payment_fails` (tests.rs lines
350-360): a rank-zero claim is `ClaimZero`. -/
def zeroPaymentTrace : Option World :=
  runScript (World.init [])
    [.doBump .ok 10 1,
     .setRank 1 0,
     .doInduct .ok 1,
     .doBump .ok 10 7,
     .doPayout (.err .ClaimZero) 7 1 1]

/-- Replay of the Rust test `unregistered_bankrupcy_fails_gracefully`
(tests.rs lines 362-384): budget 10, unregistered ranks {2, 6, 12} paid
in call order receive {2, 6, 2}. -/
def unregisteredBankruptcyTrace : Option World :=
  runScript (World.init [])
    [.doBump .ok 10 1,
     .setRank 1 2, .setRank 2 6, .setRank 3 12,
     .doInduct .ok 1, .doInduct .ok 2, .doInduct .ok 3,
     .doBump .ok 10 7,
     .doPayout .ok 7 1 1,
     .doPayout .ok 7 2 2,
     .doPayout .ok 7 3 3,
     .expectPaid 1 2, .expectPaid 2 6, .expectPaid 3 2]

/-- Replay of the Rust test `registered_bankrupcy_fails_gracefully`
(tests.rs lines 386-413): budget 10, registered claims {2, 6, 12}
(total 20) settled in order receive {1, 3, 6}, summing to the budget. -/
def registeredBankruptcyTrace : Option World :=
  runScript (World.init [])
    [.doBump .ok 10 1,
     .setRank 1 2, .setRank 2 6, .setRank 3 12,
     .doInduct .ok 1, .doInduct .ok 2, .doInduct .ok 3,
     .doBump .ok 10 5,
     .doRegister .ok 1, .doRegister .ok 2, .doRegister .ok 3,
     .doPayout .ok 7 1 1,
     .doPayout .ok 7 2 2,
     .doPayout .ok 7 3 3,
     .expectPaid 1 1, .expectPaid 2 3, .expectPaid 3 6]

/-- Replay of the Rust test `mixed_bankrupcy_fails_gracefully` (tests.rs
lines 415-441): registered claims {2, 6} (total 8 ≤ budget 10) are paid
in full — 6, not the literal spec formula's `floor(6*10/8) = 7` — and
the unregistered rank 12 gets the leftover 2. -/
def mixedBankruptcyTrace : Option World :=
  runScript (World.init [])
    [.doBump .ok 10 1,
     .setRank 1 2, .setRank 2 6, .setRank 3 12,
     .doInduct .ok 1, .doInduct .ok 2, .doInduct .ok 3,
     .doBump .ok 10 5,
     .doRegister .ok 1, .doRegister .ok 2,
     .doPayout .ok 7 3 3,
     .doPayout .ok 7 2 2,
     .doPayout .ok 7 1 1,
     .expectPaid 1 2, .expectPaid 2 6, .expectPaid 3 2]

/-- Replay of the Rust test `other_mixed_bankrupcy_fails_gracefully`
(tests.rs lines 443-469): with registered claims {6, 12} (total 18 >
budget 10) the unregistered pool is empty (`ClaimZero` for rank 2) and
the registered pair is rationed to {3, 7}. -/
def otherMixedBankruptcyTrace : Option World :=
  runScript (World.init [])
    [.doBump .ok 10 1,
     .setRank 1 2, .setRank 2 6, .setRank 3 12,
     .doInduct .ok 1, .doInduct .ok 2, .doInduct .ok 3,
     .doBump .ok 10 5,
     .doRegister .ok 2, .doRegister .ok 3,
     .doPayout (.err .ClaimZero) 7 1 1,
     .doPayout .ok 7 2 2,
     .doPayout .ok 7 3 3,
     .expectPaid 1 0, .expectPaid 2 3, .expectPaid 3 7]

/-! ## Derived definitions used by the claim-level theorems -/

/-- One settlement step of an order-independence experiment: run a full
`payout` call for a claimant registered in the current cycle with stored
claim amount `a`, accumulating the sum of amounts actually paid and a
flag recording whether every call so far succeeded (a failed call — only
`ClaimZero` or `TooEarly` can occur here — leaves the cycle record
untouched and clears the flag). -/
def settleStep (regPeriod now : Nat) (acc : Status × Nat × Bool)
    (a : Nat) : Status × Nat × Bool :=
  match payout regPeriod now (fun _ => .unknown) 0 0 (some acc.1)
      (some ⟨acc.1.cycleIndex, .registered a⟩) 0 with
  | .ok r => (r.status, acc.2.1 + r.amount, acc.2.2)
  | .error _ => (acc.1, acc.2.1, false)

/-- Settle, through real `payout` calls and in the given order, a list
of claimants all registered for the current cycle (one list element per
claimant, carrying that claimant's registered amount). -/
def settleRegistered (regPeriod now : Nat) (s : Status) (l : List Nat) :
    Status × Nat × Bool :=
  l.foldl (settleStep regPeriod now) (s, 0, true)

/-- Arithmetic skeleton of `settleRegistered`: the evolution of
`(registrationsPaid, sum paid out, all-succeeded)` under the rationed
registered payouts, with cycle budget `b` and registration total `tr`
fixed. -/
def ration (b tr : Nat) : Nat × Nat × Bool → List Nat → Nat × Nat × Bool
  | acc, [] => acc
  | (p, paidSum, ok), a :: l =>
    if registeredPayout b tr p a = 0 then ration b tr (p, paidSum, false) l
    else ration b tr (p + a, paidSum + registeredPayout b tr p a, ok) l

/-- Transactional wrapper of `bump` (spec §5: operations are atomic
transactions): the state after the call, plus whether it succeeded. -/
def bumpStep (regPeriod payPeriod budgetNow now : Nat)
    (st : Option Status) : Option Status × Bool :=
  match bump regPeriod payPeriod budgetNow now st with
  | .ok s => (some s, true)
  | .error _ => (st, false)

/-- Transactional wrapper of `induct`. -/
def inductStep (hasRank : Bool) (st : Option Status)
    (cl : Option Claimant) : Option Claimant × Bool :=
  match induct hasRank st cl with
  | .ok c => (some c, true)
  | .error _ => (cl, false)

/-- Transactional wrapper of `register`. -/
def registerStep (salary : Nat) (st : Option Status)
    (cl : Option Claimant) : (Option Status × Option Claimant) × Bool :=
  match register salary st cl with
  | .ok r => ((some r.1, some r.2), true)
  | .error _ => ((st, cl), false)

/-- Transactional wrapper of `payout`: resulting cycle and member state,
the external payment issued (beneficiary, amount) if any, and whether
the call succeeded. -/
def payoutStep (regPeriod now : Nat) (check : Nat → PaymentStatus)
    (claim newId : Nat) (st : Option Status) (cl : Option Claimant)
    (ben : Nat) :
    (Option Status × Option Claimant × Option (Nat × Nat)) × Bool :=
  match payout regPeriod now check claim newId st cl ben with
  | .ok r => ((some r.status, some r.claimant,
               some (r.beneficiary, r.amount)), true)
  | .error _ => ((st, cl, none), false)

/-- The beneficiary-independent part of a `payout` result: the caller's
bookkeeping (cycle record, member record) and the amount. -/
def payView (r : PayResult) : Status × Claimant × Nat :=
  (r.status, r.claimant, r.amount)

/-! ## Theorems -/

/-- All eleven Rust tests of `src/frame/salary/src/tests.rs` replay
successfully through the model (a trace is `none` as soon as any step's
outcome differs from what the Rust test asserts). -/
theorem replay_all_rust_tests :
    canStartTrace.isSome ∧ bumpWorksTrace.isSome ∧
    inductWorksTrace.isSome ∧ unregisteredPaymentTrace.isSome ∧
    retryPaymentTrace.isSome ∧ registeredPaymentTrace.isSome ∧
    zeroPaymentTrace.isSome ∧ unregisteredBankruptcyTrace.isSome ∧
    registeredBankruptcyTrace.isSome ∧ mixedBankruptcyTrace.isSome ∧
    otherMixedBankruptcyTrace.isSome := by
  decide

/-! ### Helper lemmas -/

/-- A `payout` call on a claimant registered for the current cycle, with
the payout window open, either fails `ClaimZero` (amount 0) or pays the
rationed amount and advances `registrationsPaid` by the registered
claim. -/
theorem settleStep_registered (regPeriod now i start b tr p up paidSum : Nat)
    (ok : Bool) (a : Nat) (hwin : start + regPeriod ≤ now) :
    settleStep regPeriod now (⟨i, start, b, tr, p, up⟩, paidSum, ok) a =
      if registeredPayout b tr p a = 0 then
        (⟨i, start, b, tr, p, up⟩, paidSum, false)
      else
        (⟨i, start, b, tr, p + a, up⟩,
         paidSum + registeredPayout b tr p a, ok) := by
  by_cases h : registeredPayout b tr p a = 0 <;>
    simp [settleStep, payout, freshPayout, Nat.not_lt.mpr hwin, h]

/-- With the window open, settling registered claimants through `payout`
follows the arithmetic skeleton `ration`. -/
theorem settle_foldl_eq_ration (regPeriod now i start b tr up : Nat)
    (hwin : start + regPeriod ≤ now) (l : List Nat) :
    ∀ (p paidSum : Nat) (ok : Bool),
      List.foldl (settleStep regPeriod now)
          (⟨i, start, b, tr, p, up⟩, paidSum, ok) l =
        (⟨i, start, b, tr, (ration b tr (p, paidSum, ok) l).1, up⟩,
         (ration b tr (p, paidSum, ok) l).2.1,
         (ration b tr (p, paidSum, ok) l).2.2) := by
  induction l with
  | nil => intro p paidSum ok; simp [ration]
  | cons a l ih =>
    intro p paidSum ok
    rw [List.foldl_cons,
        settleStep_registered regPeriod now i start b tr p up paidSum ok a hwin]
    by_cases h : registeredPayout b tr p a = 0
    · rw [if_pos h, ih, ration]
      simp [h]
    · rw [if_neg h, ih, ration]
      simp [h]

/-- The cumulative settled registrations never exceed the initial value
plus the sum of the processed claims. -/
theorem ration_fst_le (b tr : Nat) (l : List Nat) :
    ∀ (p paidSum : Nat) (ok : Bool),
      (ration b tr (p, paidSum, ok) l).1 ≤ p + l.sum := by
  induction l with
  | nil => intro p paidSum ok; simp [ration]
  | cons a l ih =>
    intro p paidSum ok
    rw [ration]
    by_cases h : registeredPayout b tr p a = 0
    · rw [if_pos h]
      calc (ration b tr (p, paidSum, false) l).1 ≤ p + l.sum := ih p paidSum false
        _ ≤ p + (a :: l).sum := by rw [List.sum_cons]; omega
    · rw [if_neg h]
      calc (ration b tr (p + a, paidSum + registeredPayout b tr p a, ok) l).1
          ≤ p + a + l.sum := ih (p + a) _ ok
        _ = p + (a :: l).sum := by rw [List.sum_cons]; omega

/-- Telescoping: the total amount paid out is always the floor share of
the cumulative settled registrations. -/
theorem ration_snd_eq (b tr : Nat) (l : List Nat) :
    ∀ (p paidSum : Nat) (ok : Bool),
      paidSum = p * min b tr / max tr 1 →
      (ration b tr (p, paidSum, ok) l).2.1 =
        (ration b tr (p, paidSum, ok) l).1 * min b tr / max tr 1 := by
  induction l with
  | nil => intro p paidSum ok h; simpa [ration] using h
  | cons a l ih =>
    intro p paidSum ok h
    rw [ration]
    by_cases hz : registeredPayout b tr p a = 0
    · rw [if_pos hz]
      exact ih p paidSum false h
    · rw [if_neg hz]
      apply ih
      rw [h, registeredPayout]
      have hmono : p * min b tr / max tr 1 ≤ (p + a) * min b tr / max tr 1 :=
        Nat.div_le_div_right (Nat.mul_le_mul_right _ (Nat.le_add_right p a))
      omega

/-- If every settlement in the run succeeded, the cumulative settled
registrations advanced by exactly the sum of the claims. -/
theorem ration_ok_true (b tr : Nat) (l : List Nat) :
    ∀ (p paidSum : Nat) (ok : Bool),
      (ration b tr (p, paidSum, ok) l).2.2 = true →
      ok = true ∧ (ration b tr (p, paidSum, ok) l).1 = p + l.sum := by
  induction l with
  | nil => intro p paidSum ok h; simp [ration] at h ⊢; exact h
  | cons a l ih =>
    intro p paidSum ok h
    rw [ration] at h
    by_cases hz : registeredPayout b tr p a = 0
    · rw [if_pos hz] at h
      exact absurd (ih p paidSum false h).1 (by simp)
    · rw [if_neg hz] at h
      obtain ⟨hok, hfst⟩ := ih (p + a) (paidSum + registeredPayout b tr p a) ok h
      refine ⟨hok, ?_⟩
      rw [ration, if_neg hz, hfst]
      simp
      omega

/-- The floor share of `p ≤ tr` settled registrations is at most the
effective budget `min b tr`. -/
theorem cap_div_le (b tr p : Nat) (hp : p ≤ tr) :
    p * min b tr / max tr 1 ≤ min b tr := by
  rcases Nat.eq_zero_or_pos tr with h | h
  · subst h
    simp
  · have hmax : max tr 1 = tr := by omega
    rw [hmax]
    calc p * min b tr / tr ≤ tr * min b tr / tr :=
          Nat.div_le_div_right (Nat.mul_le_mul_right _ hp)
      _ = min b tr := Nat.mul_div_cancel_left _ h

/-- The floor share of all `tr` registrations is exactly the effective
budget `min b tr`. -/
theorem cap_div_full (b tr : Nat) : tr * min b tr / max tr 1 = min b tr := by
  rcases Nat.eq_zero_or_pos tr with h | h
  · subst h
    simp
  · have hmax : max tr 1 = tr := by omega
    rw [hmax]
    exact Nat.mul_div_cancel_left _ h

/-! ### Claim-level theorems -/

/-- Claim C1: For every cycle, the sum of amounts paid out (through real
`payout` calls) to registered claimants never exceeds
`min (budget, total_registered_claims)` — at every prefix of any
settlement order — and once every registered claimant of the cycle has
settled (every call succeeded), the sum equals
`min (budget, total_registered_claims)` exactly, for every permutation
`order` of the registered claims, i.e. regardless of the order in which
the registered claimants call `payout`. -/
theorem registered_settlement_exact (regPeriod now i start b up : Nat)
    (claims order : List Nat) (hwin : start + regPeriod ≤ now)
    (hperm : order.Perm claims) :
    (∀ pre suf, order = pre ++ suf →
      (settleRegistered regPeriod now
          ⟨i, start, b, claims.sum, 0, up⟩ pre).2.1 ≤ min b claims.sum) ∧
    ((settleRegistered regPeriod now
        ⟨i, start, b, claims.sum, 0, up⟩ order).2.2 = true →
      (settleRegistered regPeriod now
          ⟨i, start, b, claims.sum, 0, up⟩ order).2.1 = min b claims.sum) := by
  have hsum : order.sum = claims.sum := hperm.sum_eq
  constructor
  · intro pre suf hps
    have hpre : pre.sum ≤ claims.sum := by
      have : order.sum = pre.sum + suf.sum := by rw [hps, List.sum_append]
      omega
    unfold settleRegistered
    rw [settle_foldl_eq_ration regPeriod now i start b claims.sum up hwin]
    rw [ration_snd_eq b claims.sum pre 0 0 true (by simp)]
    apply cap_div_le
    have := ration_fst_le b claims.sum pre 0 0 true
    omega
  · intro hok
    unfold settleRegistered at hok ⊢
    rw [settle_foldl_eq_ration regPeriod now i start b claims.sum up hwin] at hok ⊢
    simp only at hok
    obtain ⟨-, hfst⟩ := ration_ok_true b claims.sum order 0 0 true hok
    rw [ration_snd_eq b claims.sum order 0 0 true (by simp), hfst]
    rw [Nat.zero_add, hsum]
    exact cap_div_full b claims.sum

/-- Witness for C1: the `registered_bankrupcy_fails_gracefully` cycle
(budget 10, claims {2, 6, 12}) settled in the order {12, 2, 6}: all
three calls succeed and the total paid is exactly `min 10 20 = 10`. -/
theorem registered_settlement_exact_witness :
    (settleRegistered 2 7 ⟨1, 5, 10, 20, 0, 0⟩ [12, 2, 6]).2.2 = true ∧
    (settleRegistered 2 7 ⟨1, 5, 10, 20, 0, 0⟩ [12, 2, 6]).2.1 = min 10 20 :=
  ⟨by decide,
   (registered_settlement_exact 2 7 1 5 10 0 [2, 6, 12] [12, 2, 6]
      (by decide) (by decide)).2 (by decide)⟩

/-- Claim C2 counterexample: in the state of the Rust test
`mixed_bankrupcy_fails_gracefully` (budget 10, total registered claims
8, nothing settled yet, 2 already paid to unregistered claimants), the
fresh payout of the claimant registered for 6 pays 6 — as the test
asserts — while the claimed formula
`floor(new_cumulative*budget/total) − floor(settled*budget/total)`
yields `floor(6*10/8) = 7`.  The claim's "for every budget … including
when budget exceeds total_registered_claims" is therefore false. -/
theorem registered_amount_formula_counterexample :
    resOpt (payout 2 7 (fun _ => .unknown) 6 1 (some ⟨1, 5, 10, 8, 0, 2⟩)
        (some ⟨1, .registered 6⟩) 2) =
      some ⟨⟨1, 5, 10, 8, 6, 2⟩, ⟨1, .attempted (some 6) 1 6⟩, 2, 6⟩ ∧
    specRegisteredAmount 10 8 0 6 = 7 ∧ (6 : Nat) ≠ 7 := by
  decide

/-- Claim C2 (amended): for every fresh payout by a claimant registered
this cycle for amount `a`, the amount paid equals
`floor(new_cumulative * min(budget, total) / total) −
floor(settled * min(budget, total) / total)` with
`new_cumulative = settled + a` — i.e. the spec's formula with the budget
capped at `total_registered_claims` (the two agree whenever
`budget ≤ total`); `total` is the denominator only when positive.  When
that amount is zero, the call fails `ClaimZero` and nothing is paid. -/
theorem registered_amount_capped_formula
    (regPeriod now claim newId i start b tr p up a ben : Nat)
    (check : Nat → PaymentStatus) (hwin : start + regPeriod ≤ now) :
    ((p + a) * min b tr / max tr 1 - p * min b tr / max tr 1 ≠ 0 →
      payout regPeriod now check claim newId (some ⟨i, start, b, tr, p, up⟩)
          (some ⟨i, .registered a⟩) ben =
        .ok ⟨⟨i, start, b, tr, p + a, up⟩,
             ⟨i, .attempted (some a) newId
                ((p + a) * min b tr / max tr 1 - p * min b tr / max tr 1)⟩,
             ben,
             (p + a) * min b tr / max tr 1 - p * min b tr / max tr 1⟩) ∧
    ((p + a) * min b tr / max tr 1 - p * min b tr / max tr 1 = 0 →
      payout regPeriod now check claim newId (some ⟨i, start, b, tr, p, up⟩)
          (some ⟨i, .registered a⟩) ben = .error .ClaimZero) := by
  constructor
  · intro h
    simp [payout, freshPayout, registeredPayout, Nat.not_lt.mpr hwin, h]
  · intro h
    simp [payout, freshPayout, registeredPayout, Nat.not_lt.mpr hwin, h]

/-- Witness for C2 (amended), at the `registered_bankrupcy` state
(budget 10, total 20, 8 already settled, claim 12):
`floor(20*10/20) − floor(8*10/20) = 10 − 4 = 6` is paid. -/
theorem registered_amount_capped_formula_witness :
    payout 2 7 (fun _ => PaymentStatus.unknown) 12 2
        (some ⟨1, 5, 10, 20, 8, 0⟩) (some ⟨1, .registered 12⟩) 3 =
      .ok ⟨⟨1, 5, 10, 20, 20, 0⟩, ⟨1, .attempted (some 12) 2 6⟩, 3, 6⟩ :=
  (registered_amount_capped_formula 2 7 12 2 1 5 10 20 8 0 12 3
      (fun _ => PaymentStatus.unknown) (by decide)).1 (by decide)

/-- Claim C3: for every fresh payout by a claimant who did not register
this cycle (here in the `nothing` claim state, eligible, window open),
the amount paid equals `min (claim_amount(rank), remaining_pool)` with
`remaining_pool = saturating_sub(budget, total_registered_claims) −
total_unregistered_paid`; the amount is added to
`total_unregistered_paid`, which is how successive unregistered
claimants consume the shared pool strictly in call order; and once the
pool is exhausted (`budget − total ≤ total_unregistered_paid`) the
computed amount is zero and the call fails `ClaimZero`. -/
theorem unregistered_amount_pool
    (regPeriod now claim newId i start b tr p up la ben : Nat)
    (check : Nat → PaymentStatus) (hwin : start + regPeriod ≤ now)
    (helig : la < i) :
    (min claim (b - tr - up) ≠ 0 →
      payout regPeriod now check claim newId (some ⟨i, start, b, tr, p, up⟩)
          (some ⟨la, .nothing⟩) ben =
        .ok ⟨⟨i, start, b, tr, p, up + min claim (b - tr - up)⟩,
             ⟨i, .attempted none newId (min claim (b - tr - up))⟩,
             ben, min claim (b - tr - up)⟩) ∧
    (min claim (b - tr - up) = 0 →
      payout regPeriod now check claim newId (some ⟨i, start, b, tr, p, up⟩)
          (some ⟨la, .nothing⟩) ben = .error .ClaimZero) ∧
    (b - tr ≤ up →
      payout regPeriod now check claim newId (some ⟨i, start, b, tr, p, up⟩)
          (some ⟨la, .nothing⟩) ben = .error .ClaimZero) := by
  refine ⟨?_, ?_, ?_⟩
  · intro h
    simp [payout, freshPayout, unregisteredFresh, unregisteredPayout,
      Nat.not_lt.mpr hwin, helig, h]
  · intro h
    simp [payout, freshPayout, unregisteredFresh, unregisteredPayout,
      Nat.not_lt.mpr hwin, helig, h]
  · intro h
    have hz : b - tr - up = 0 := by omega
    simp [payout, freshPayout, unregisteredFresh, unregisteredPayout,
      Nat.not_lt.mpr hwin, helig, hz]

/-- Witness for C3: the `unregistered_bankrupcy` state after 8 of the
budget of 10 was paid to unregistered claimants: the rank-12 claimant is
paid `min(12, 10 − 0 − 8) = 2`; and with the pool exhausted
(`up = 10`), the call fails `ClaimZero`. -/
theorem unregistered_amount_pool_witness :
    payout 2 7 (fun _ => PaymentStatus.unknown) 12 2
        (some ⟨1, 5, 10, 0, 0, 8⟩) (some ⟨0, .nothing⟩) 3 =
      .ok ⟨⟨1, 5, 10, 0, 0, 10⟩, ⟨1, .attempted none 2 2⟩, 3, 2⟩ ∧
    payout 2 7 (fun _ => PaymentStatus.unknown) 12 2
        (some ⟨1, 5, 10, 0, 0, 10⟩) (some ⟨0, .nothing⟩) 3 =
      .error .ClaimZero :=
  ⟨(unregistered_amount_pool 2 7 12 2 1 5 10 0 0 8 0 3
      (fun _ => PaymentStatus.unknown) (by decide) (by decide)).1 (by decide),
   (unregistered_amount_pool 2 7 12 2 1 5 10 0 0 10 0 3
      (fun _ => PaymentStatus.unknown) (by decide) (by decide)).2.2 (by decide)⟩

/-- Claim C4 counterexample: `advance_cycle` succeeding at tick 6 over
the cycle `{index 0, start 1}` (with `RegistrationPeriod =
PayoutPeriod = 2`) produces a cycle whose start is `1 + 2 + 2 = 5`, not
the current tick 6 — this is exactly what the Rust test
`unregistered_payment_works` forces (its payout succeeds at tick 7,
which requires start 5, not 6; see `unregisteredPaymentTrace`). -/
theorem bump_start_counterexample :
    resOpt (bump 2 2 10 6 (some ⟨0, 1, 10, 0, 0, 0⟩)) =
      some ⟨1, 5, 10, 0, 0, 0⟩ ∧ (5 : Nat) ≠ 6 := by
  decide

/-- Claim C4 (amended): whenever `advance_cycle` succeeds while a
current cycle exists — which happens exactly when
`old_start + RegistrationPeriod + PayoutPeriod ≤ now` — the replacement
cycle record has index `old index + 1`, start equal to
`old start + RegistrationPeriod + PayoutPeriod` (the current tick `now`
only when the call lands exactly on that boundary), budget freshly
sampled from the external budget source, and `total_registered_claims`,
`cumulative_registered_claims_settled` and `total_unregistered_paid`
all reset to 0. -/
theorem bump_advances_full_period
    (regPeriod payPeriod budgetNow now i start b tr p up : Nat)
    (h : start + (regPeriod + payPeriod) ≤ now) :
    bump regPeriod payPeriod budgetNow now (some ⟨i, start, b, tr, p, up⟩) =
      .ok ⟨i + 1, start + (regPeriod + payPeriod), budgetNow, 0, 0, 0⟩ := by
  simp [bump, h]

/-- Witness for C4 (amended): the second bump of the Rust test
`bump_works`, with the external budget meanwhile changed to 5. -/
theorem bump_advances_full_period_witness :
    bump 2 2 5 9 (some ⟨1, 5, 10, 0, 0, 0⟩) = .ok ⟨2, 9, 5, 0, 0, 0⟩ :=
  bump_advances_full_period 2 2 5 9 1 5 10 0 0 0 (by decide)

/-- Claim C5 counterexample: an account inducted in the current cycle
(`last_active_cycle = 0 = index`, hence not eligible) calling `payout`
at tick 1, before the payout window opens at `1 + 2 = 3`, receives
`TooEarly` — not `NoClaim` as the claim's check ordering asserts.  This
is the assertion at tests.rs line 257. -/
theorem payout_order_counterexample :
    resErr (payout 2 1 (fun _ => .unknown) 1 0 (some ⟨0, 1, 10, 0, 0, 0⟩)
        (some ⟨0, .nothing⟩) 1) = some .TooEarly ∧ ¬ (0 : Nat) < 0 := by
  decide

/-- Claim C5 (amended): for a fresh payout claim by an account that did
not register this cycle, the payout-window check is applied before the
eligibility check: whenever `now < start + RegistrationPeriod` the call
fails `TooEarly` (even for an ineligible account), and once the window
is open it fails `NoClaim` whenever the account is not eligible this
cycle (`last_active_cycle` not strictly below the cycle index). -/
theorem payout_window_precedes_eligibility
    (regPeriod now claim newId i start b tr p up la ben : Nat)
    (check : Nat → PaymentStatus) :
    (now < start + regPeriod →
      payout regPeriod now check claim newId (some ⟨i, start, b, tr, p, up⟩)
          (some ⟨la, .nothing⟩) ben = .error .TooEarly) ∧
    (start + regPeriod ≤ now → ¬ la < i →
      payout regPeriod now check claim newId (some ⟨i, start, b, tr, p, up⟩)
          (some ⟨la, .nothing⟩) ben = .error .NoClaim) := by
  constructor
  · intro h
    simp [payout, freshPayout, h]
  · intro h h2
    simp [payout, freshPayout, unregisteredFresh, Nat.not_lt.mpr h, h2]

/-- Witness for C5 (amended): both branches at the states of the Rust
test `unregistered_payment_works` (ticks 1 and 3 of cycle 0). -/
theorem payout_window_precedes_eligibility_witness :
    payout 2 1 (fun _ => PaymentStatus.unknown) 1 0
        (some ⟨0, 1, 10, 0, 0, 0⟩) (some ⟨0, .nothing⟩) 1 =
      .error .TooEarly ∧
    payout 2 3 (fun _ => PaymentStatus.unknown) 1 0
        (some ⟨0, 1, 10, 0, 0, 0⟩) (some ⟨0, .nothing⟩) 1 =
      .error .NoClaim :=
  ⟨(payout_window_precedes_eligibility 2 1 1 0 0 1 10 0 0 0 0 1
      (fun _ => PaymentStatus.unknown)).1 (by decide),
   (payout_window_precedes_eligibility 2 3 1 0 0 1 10 0 0 0 0 1
      (fun _ => PaymentStatus.unknown)).2 (by decide) (by decide)⟩

/-- Claim C6: a payout call that finds a pending payment for the current
cycle whose status is `Failure` succeeds as a retry: it pays exactly the
amount recorded by the original attempt (which, by
`registered_amount_capped_formula` and `unregistered_amount_pool`, is
the amount the original attempt computed), re-invokes the external pay
operation, replaces the pending payment id with the fresh one, and
leaves the cycle record — `cumulative_registered_claims_settled`,
`total_unregistered_paid` and all other totals — exactly unchanged. -/
theorem retry_after_failure
    (regPeriod now claim newId i start b tr p up ben id amt : Nat)
    (reg : Option Nat) (check : Nat → PaymentStatus)
    (hfail : check id = .failure) :
    payout regPeriod now check claim newId (some ⟨i, start, b, tr, p, up⟩)
        (some ⟨i, .attempted reg id amt⟩) ben =
      .ok ⟨⟨i, start, b, tr, p, up⟩, ⟨i, .attempted reg newId amt⟩,
           ben, amt⟩ := by
  simp [payout, hfail]

/-- Witness for C6: the retry of the Rust test `retry_payment_works`
(payment 0 marked `Failure`; the retry pays 1 again under id 1 and the
cycle totals stay put). -/
theorem retry_after_failure_witness :
    payout 2 7 (fun _ => PaymentStatus.failure) 1 1
        (some ⟨1, 5, 10, 0, 0, 1⟩) (some ⟨1, .attempted none 0 1⟩) 1 =
      .ok ⟨⟨1, 5, 10, 0, 0, 1⟩, ⟨1, .attempted none 1 1⟩, 1, 1⟩ :=
  retry_after_failure 2 7 1 1 1 5 10 0 0 1 1 0 1 none
    (fun _ => PaymentStatus.failure) rfl

/-- Claim C7: a payout call on an account whose pending payment belongs
to the current cycle and whose payment status is anything other than
`Failure` (`Success`, `Pending` or `Unknown`) fails with `NoClaim` — so,
the engine being transactional (`errors_leave_state_unchanged`), no
external payment is made and no state changes. -/
theorem settled_payout_no_claim
    (regPeriod now claim newId i start b tr p up ben id amt : Nat)
    (reg : Option Nat) (check : Nat → PaymentStatus)
    (hnot : check id ≠ .failure) :
    payout regPeriod now check claim newId (some ⟨i, start, b, tr, p, up⟩)
        (some ⟨i, .attempted reg id amt⟩) ben = .error .NoClaim := by
  simp [payout, hnot]

/-- Witness for C7: the double-payout assertion of
`unregistered_payment_works` (tests.rs line 268): the pending payment's
status is `Unknown`, and the second call is refused. -/
theorem settled_payout_no_claim_witness :
    payout 2 7 (fun _ => PaymentStatus.unknown) 1 1
        (some ⟨1, 5, 10, 0, 0, 1⟩) (some ⟨1, .attempted none 0 1⟩) 1 =
      .error .NoClaim :=
  settled_payout_no_claim 2 7 1 1 1 5 10 0 0 1 1 0 1 none
    (fun _ => PaymentStatus.unknown) (by decide)

/-- Claim C8: a successful induct creates the member record with
`last_active_cycle` equal to the current cycle index, so the inducted
account can neither register (`NoClaim`) nor receive a fresh payout
(every `payout` call errors — `TooEarly` before the window, `NoClaim`
after) during the cycle of induction; and after the next successful
`advance_cycle` the eligibility predicate
`last_active_cycle < cycle index` holds again. -/
theorem induct_defers_eligibility
    (i start b tr p up salary regPeriod payPeriod budgetNow nowB
      regPeriod2 now2 claim newId ben : Nat)
    (check : Nat → PaymentStatus) :
    (induct true (some ⟨i, start, b, tr, p, up⟩) none = .ok ⟨i, .nothing⟩) ∧
    (register salary (some ⟨i, start, b, tr, p, up⟩)
        (some ⟨i, .nothing⟩) = .error .NoClaim) ∧
    (resOpt (payout regPeriod2 now2 check claim newId
        (some ⟨i, start, b, tr, p, up⟩) (some ⟨i, .nothing⟩) ben) = none) ∧
    (start + (regPeriod + payPeriod) ≤ nowB →
      ∀ s2, bump regPeriod payPeriod budgetNow nowB
          (some ⟨i, start, b, tr, p, up⟩) = .ok s2 → i < s2.cycleIndex) := by
  refine ⟨?_, ?_, ?_, ?_⟩
  · simp [induct]
  · simp [register]
  · rcases Nat.lt_or_ge now2 (start + regPeriod2) with h | h
    · simp [payout, freshPayout, h, resOpt]
    · simp [payout, freshPayout, unregisteredFresh, Nat.not_lt.mpr h, resOpt]
  · intro hb s2 h2
    simp [bump, hb] at h2
    subst h2
    exact Nat.lt_succ_self i

/-- Witness for C8, at the state of `unregistered_payment_works` during
cycle 0: induction gives `last_active_cycle = 0`, register and payout
are refused, and the bump to cycle 1 restores eligibility. -/
theorem induct_defers_eligibility_witness :
    (induct true (some ⟨0, 1, 10, 0, 0, 0⟩) none = .ok ⟨0, .nothing⟩) ∧
    (register 1 (some ⟨0, 1, 10, 0, 0, 0⟩) (some ⟨0, .nothing⟩) =
      .error .NoClaim) ∧
    (resOpt (payout 2 3 (fun _ => PaymentStatus.unknown) 1 0
        (some ⟨0, 1, 10, 0, 0, 0⟩) (some ⟨0, .nothing⟩) 1) = none) ∧
    (∀ s2, bump 2 2 10 6 (some ⟨0, 1, 10, 0, 0, 0⟩) = .ok s2 →
      0 < s2.cycleIndex) :=
  have base := induct_defers_eligibility 0 1 10 0 0 0 1 2 2 10 6 2 3 1 0 1
    (fun _ => PaymentStatus.unknown)
  ⟨base.1, base.2.1, base.2.2.1, base.2.2.2 (by decide)⟩

/-- Claim C9: every failing invocation of `advance_cycle`, `induct`,
`register` or `payout` leaves the engine state — the cycle record and
every member record — unchanged, and a failing `payout` issues no
external payment: the transactional wrappers return exactly the input
state with the failure flag. -/
theorem errors_leave_state_unchanged
    (regPeriod payPeriod budgetNow now : Nat) (st : Option Status)
    (hasRank : Bool) (st2 : Option Status) (cl2 : Option Claimant)
    (salary : Nat) (st3 : Option Status) (cl3 : Option Claimant)
    (regPeriod4 now4 claim newId ben : Nat) (check : Nat → PaymentStatus)
    (st4 : Option Status) (cl4 : Option Claimant) :
    (resOpt (bump regPeriod payPeriod budgetNow now st) = none →
      bumpStep regPeriod payPeriod budgetNow now st = (st, false)) ∧
    (resOpt (induct hasRank st2 cl2) = none →
      inductStep hasRank st2 cl2 = (cl2, false)) ∧
    (resOpt (register salary st3 cl3) = none →
      registerStep salary st3 cl3 = ((st3, cl3), false)) ∧
    (resOpt (payout regPeriod4 now4 check claim newId st4 cl4 ben) = none →
      payoutStep regPeriod4 now4 check claim newId st4 cl4 ben =
        ((st4, cl4, none), false)) := by
  refine ⟨?_, ?_, ?_, ?_⟩
  · intro h
    cases hb : bump regPeriod payPeriod budgetNow now st
    · simp [bumpStep, hb]
    · simp [resOpt, hb] at h
  · intro h
    cases hb : induct hasRank st2 cl2
    · simp [inductStep, hb]
    · simp [resOpt, hb] at h
  · intro h
    cases hb : register salary st3 cl3
    · simp [registerStep, hb]
    · simp [resOpt, hb] at h
  · intro h
    cases hb : payout regPeriod4 now4 check claim newId st4 cl4 ben
    · simp [payoutStep, hb]
    · simp [resOpt, hb] at h

/-- Witness for C9: a `NotYet` bump, a `NotMember` induct, a
`NotInducted` register and a `NotInducted` payout all leave the state
exactly as it was and issue no payment. -/
theorem errors_leave_state_unchanged_witness :
    bumpStep 2 2 10 2 (some ⟨0, 1, 10, 0, 0, 0⟩) =
      (some ⟨0, 1, 10, 0, 0, 0⟩, false) ∧
    inductStep false (some ⟨0, 1, 10, 0, 0, 0⟩) none = (none, false) ∧
    registerStep 1 (some ⟨0, 1, 10, 0, 0, 0⟩) none =
      ((some ⟨0, 1, 10, 0, 0, 0⟩, none), false) ∧
    payoutStep 2 7 (fun _ => PaymentStatus.unknown) 1 0
        (some ⟨0, 1, 10, 0, 0, 0⟩) none 1 =
      ((some ⟨0, 1, 10, 0, 0, 0⟩, none, none), false) :=
  have base := errors_leave_state_unchanged 2 2 10 2
    (some ⟨0, 1, 10, 0, 0, 0⟩) false (some ⟨0, 1, 10, 0, 0, 0⟩) none 1
    (some ⟨0, 1, 10, 0, 0, 0⟩) none 2 7 1 0 1
    (fun _ => PaymentStatus.unknown) (some ⟨0, 1, 10, 0, 0, 0⟩) none
  ⟨base.1 (by decide), base.2.1 (by decide), base.2.2.1 (by decide),
   base.2.2.2 (by decide)⟩

/-- The beneficiary argument of the unregistered fresh branch lands only
in the result's beneficiary field. -/
theorem unregisteredFresh_ben_eq (claim newId : Nat) (s : Status)
    (c : Claimant) (ben ben2 : Nat) :
    (∀ r, unregisteredFresh claim newId s c ben = .ok r →
      r.beneficiary = ben) ∧
    (resOpt (unregisteredFresh claim newId s c ben)).map payView =
      (resOpt (unregisteredFresh claim newId s c ben2)).map payView := by
  unfold unregisteredFresh
  by_cases h1 : c.lastActive < s.cycleIndex
  · simp only [if_pos h1]
    by_cases h2 : unregisteredPayout s.budget s.totalRegistrations
        s.totalUnregisteredPaid claim = 0
    · simp [h2, resOpt]
    · simp [h2, resOpt, payView]
  · simp [h1, resOpt]

/-- The beneficiary argument of a fresh payout claim lands only in the
result's beneficiary field. -/
theorem freshPayout_ben_eq (regPeriod now claim newId : Nat) (s : Status)
    (c : Claimant) (ben ben2 : Nat) :
    (∀ r, freshPayout regPeriod now claim newId s c ben = .ok r →
      r.beneficiary = ben) ∧
    (resOpt (freshPayout regPeriod now claim newId s c ben)).map payView =
      (resOpt (freshPayout regPeriod now claim newId s c ben2)).map
        payView := by
  obtain ⟨la, cs⟩ := c
  unfold freshPayout
  by_cases hw : now < s.cycleStart + regPeriod
  · simp [hw, resOpt]
  · simp only [if_neg hw]
    cases cs with
    | nothing => exact unregisteredFresh_ben_eq claim newId s ⟨la, .nothing⟩ ben ben2
    | registered a =>
      by_cases hla : la = s.cycleIndex
      · simp only [hla, if_pos rfl]
        by_cases hz : registeredPayout s.budget s.totalRegistrations
            s.registrationsPaid a = 0
        · simp [hz, resOpt]
        · simp [hz, resOpt, payView]
      · simp only [if_neg hla]
        exact unregisteredFresh_ben_eq claim newId s ⟨la, .registered a⟩ ben ben2
    | attempted reg id amt =>
      exact unregisteredFresh_ben_eq claim newId s ⟨la, .attempted reg id amt⟩ ben ben2

/-- Claim C10 (implicit): `payout` takes the beneficiary account as an
explicit argument separate from the caller; the external payment is sent
to that beneficiary (the result's beneficiary field is exactly the
argument), while eligibility, the amount and all bookkeeping (the cycle
record and the caller's member record) are determined solely by the
caller's state — replacing the beneficiary argument changes nothing but
the payment's destination. -/
theorem payout_beneficiary_argument (regPeriod now claim newId ben ben2 : Nat)
    (check : Nat → PaymentStatus) (st : Option Status) (cl : Option Claimant) :
    (∀ r, payout regPeriod now check claim newId st cl ben = .ok r →
      r.beneficiary = ben) ∧
    (resOpt (payout regPeriod now check claim newId st cl ben)).map payView =
      (resOpt (payout regPeriod now check claim newId st cl ben2)).map
        payView := by
  cases st with
  | none => simp [payout, resOpt]
  | some s =>
    cases cl with
    | none => simp [payout, resOpt]
    | some c =>
      obtain ⟨la, cs⟩ := c
      cases cs with
      | nothing =>
        simp only [payout]
        exact freshPayout_ben_eq regPeriod now claim newId s ⟨la, .nothing⟩ ben ben2
      | registered a =>
        simp only [payout]
        exact freshPayout_ben_eq regPeriod now claim newId s ⟨la, .registered a⟩ ben ben2
      | attempted reg id amt =>
        by_cases hla : la = s.cycleIndex
        · by_cases hf : check id = .failure
          · simp [payout, hla, hf, resOpt, payView]
          · simp [payout, hla, hf, resOpt]
        · simp only [payout, if_neg hla]
          exact freshPayout_ben_eq regPeriod now claim newId s
            ⟨la, .attempted reg id amt⟩ ben ben2

/-- Witness for C10: the cross-beneficiary payout of
`unregistered_payment_works` (caller 1, beneficiary 10, cycle 2): the
payment goes to account 10 while the bookkeeping is the caller's, and
swapping the beneficiary for 7 would change only the destination. -/
theorem payout_beneficiary_argument_witness :
    (⟨⟨2, 9, 10, 0, 0, 1⟩, ⟨2, ClaimState.attempted none 1 1⟩, 10, 1⟩ :
      PayResult).beneficiary = 10 ∧
    (resOpt (payout 2 11 (fun _ => PaymentStatus.unknown) 1 1
        (some ⟨2, 9, 10, 0, 0, 0⟩) (some ⟨1, .attempted none 0 1⟩) 10)).map
          payView =
      (resOpt (payout 2 11 (fun _ => PaymentStatus.unknown) 1 1
        (some ⟨2, 9, 10, 0, 0, 0⟩) (some ⟨1, .attempted none 0 1⟩) 7)).map
          payView :=
  ⟨(payout_beneficiary_argument 2 11 1 1 10 7
      (fun _ => PaymentStatus.unknown) (some ⟨2, 9, 10, 0, 0, 0⟩)
      (some ⟨1, .attempted none 0 1⟩)).1
      ⟨⟨2, 9, 10, 0, 0, 1⟩, ⟨2, .attempted none 1 1⟩, 10, 1⟩ rfl,
   (payout_beneficiary_argument 2 11 1 1 10 7
      (fun _ => PaymentStatus.unknown) (some ⟨2, 9, 10, 0, 0, 0⟩)
      (some ⟨1, .attempted none 0 1⟩)).2⟩

end SalaryEngine
